import Mathlib

/-!
Verification development for the skyport-server repository.

Each definition below is a shallow embedding of a function of the Go source
(`internal/config/reserved.go`, `internal/handlers/tunnel.go`, the proxy
handler, the tunnel protocol, and the templates package).  Strings are
modelled by Lean `String` restricted to ASCII data (Go `len` on ASCII strings
agrees with `String.length`), machine integers by `Nat`, the SQL registry by
a list of rows, and the in-memory active-tunnels map by a list of tunnel ids.
Stateful handlers are embedded as pure functions that take the state and
return the response together with the successor state.
-/

/-- ASCII lowercasing, mirroring Go `strings.ToLower` on ASCII input
(`Char.toLower` lowers exactly the range A-Z). -/
def lowerStr (s : String) : String :=
  String.mk (s.data.map Char.toLower)

/-- Split on the dot character, mirroring Go `strings.Split(host, ".")`. -/
def splitDot : List Char → List (List Char)
  | [] => [[]]
  | c :: rest =>
    if c = '.' then [] :: splitDot rest
    else
      match splitDot rest with
      | [] => [[c]]
      | g :: gs => (c :: g) :: gs

/-- Does the second list start with the first?  Helper for `goContains`. -/
def startsWithSeq : List Char → List Char → Bool
  | [], _ => true
  | _ :: _, [] => false
  | a :: as, b :: bs => a == b && startsWithSeq as bs

/-- Occurrence of `sub` inside a character list, at any position. -/
def containsSeq (sub : List Char) : List Char → Bool
  | [] => startsWithSeq sub []
  | c :: rest => startsWithSeq sub (c :: rest) || containsSeq sub rest

/-- Substring containment, mirroring Go `strings.Contains(s, sub)`. -/
def goContains (s sub : String) : Bool :=
  containsSeq sub.data s.data

/-- Wire message of the tunnel protocol, mirroring the Go struct
`TunnelMessage` (JSON-framed; `Body` bytes are modelled as a `String`,
`Timestamp`/`Status` as `Nat`). -/
structure TunnelMessage where
  type : String
  id : String
  method : String
  url : String
  headers : List (String × String)
  body : String
  status : Nat
  errorField : String
  timestamp : Nat
deriving DecidableEq

/-- Message with only type, id, headers, body and timestamp populated
(the remaining JSON fields are `omitempty` zero values). -/
def mkDataMsg (type id : String) (headers : List (String × String))
    (body : String) (timestamp : Nat) : TunnelMessage :=
  ⟨type, id, "", "", headers, body, 0, "", timestamp⟩

/-- Message carrying a status code, as in `http_response` and
`websocket_upgrade_response` frames. -/
def mkResponseMsg (id : String) (status : Nat)
    (headers : List (String × String)) (body : String) (timestamp : Nat) :
    TunnelMessage :=
  ⟨"http_response", id, "", "", headers, body, status, "", timestamp⟩

/-- Reserved subdomain list copied from `internal/config/reserved.go`
(`ReservedSubdomains`). -/
def ReservedSubdomains : List String :=
  ["web", "app", "www", "api", "admin", "dashboard", "console",
   "portal", "control", "panel", "cp", "manage", "manager",
   "auth", "login", "signup", "register", "account", "accounts",
   "oauth", "sso", "identity", "id", "session", "sessions",
   "security", "secure", "verify", "verification",
   "mail", "email", "smtp", "pop", "pop3", "imap",
   "webmail", "mta", "mx", "postmaster", "abuse",
   "ftp", "sftp", "ssh", "vpn", "proxy", "gateway",
   "tunnel", "tunnels", "agent", "agents", "client", "clients",
   "dns", "ns", "ns1", "ns2", "ns3", "ns4",
   "dev", "develop", "development", "staging", "stage",
   "test", "testing", "qa", "uat", "demo", "sandbox",
   "preview", "beta", "alpha", "canary", "edge",
   "prod", "production", "live", "internal", "private",
   "ops", "devops", "sre", "infrastructure", "infra",
   "docs", "documentation", "wiki", "help", "support",
   "helpdesk", "faq", "guide", "guides", "tutorial", "tutorials",
   "kb", "knowledgebase", "learn", "learning",
   "blog", "news", "forum", "forums", "community",
   "social", "chat", "discuss", "discussion", "discussions",
   "store", "shop", "cart", "checkout", "payment", "payments",
   "billing", "invoice", "invoices", "pay", "purchase",
   "order", "orders", "product", "products",
   "cdn", "static", "assets", "media", "images", "img",
   "files", "file", "download", "downloads", "upload", "uploads",
   "content", "data", "storage", "s3", "bucket",
   "ai", "ml", "machinelearning", "artificialintelligence",
   "bot", "bots", "chatbot", "analytics", "metrics",
   "stats", "statistics", "monitoring", "monitor",
   "status", "health", "check", "ping",
   "api1", "api2", "apiv1", "apiv2", "rest", "graphql",
   "webhook", "webhooks", "callback", "callbacks",
   "integration", "integrations", "connect", "sync",
   "db", "database", "mysql", "postgres", "postgresql",
   "mongodb", "redis", "cache", "queue", "worker", "workers",
   "job", "jobs", "task", "tasks", "cron",
   "mobile", "m", "ios", "android", "app-store", "play",
   "download-app", "get-app", "app-download",
   "legal", "terms", "tos", "privacy", "policy", "policies",
   "gdpr", "compliance", "copyright", "dmca",
   "about", "contact", "careers", "jobs",
   "marketing", "promo", "promotion", "promotions",
   "campaign", "campaigns", "landing", "lp",
   "sales", "crm", "lead", "leads",
   "logs", "logging", "trace", "tracing", "audit",
   "sentry", "bugsnag", "errors", "error",
   "uptime", "downtime", "incident", "incidents",
   "ci", "cd", "jenkins", "travis", "circleci",
   "gitlab", "github", "bitbucket", "git",
   "build", "builds", "deploy", "deployment", "deployments",
   "localhost", "local", "root", "system", "sys",
   "server", "servers", "host", "hosts", "node", "nodes",
   "service", "services", "microservice", "microservices",
   "admin1", "admin2", "administrator", "superuser",
   "root-admin", "sysadmin", "hostmaster", "webmaster",
   "postfix", "dovecot", "apache", "nginx",
   "cloud", "aws", "azure", "gcp", "digitalocean",
   "heroku", "vercel", "netlify", "cloudflare",
   "kubernetes", "k8s", "docker", "container", "containers",
   "profile", "profiles", "user", "users", "member", "members",
   "team", "teams", "organization", "organizations", "org", "orgs",
   "workspace", "workspaces", "project", "projects",
   "email-verify", "reset-password", "forgot-password",
   "change-password", "update-email", "confirm-email",
   "activate", "activation", "deactivate", "suspend", "suspended"]

/-- Mirrors `IsReservedSubdomain`: lowercases and scans the reserved list. -/
def IsReservedSubdomain (subdomain : String) : Bool :=
  ReservedSubdomains.contains (lowerStr subdomain)

/-- Lowercase letter or digit, the character class `[a-z0-9]`. -/
def isLowerAlnum (c : Char) : Bool :=
  (97 ≤ c.toNat && c.toNat ≤ 122) || (48 ≤ c.toNat && c.toNat ≤ 57)

/-- The character class `[a-z0-9-]`. -/
def isLowerAlnumHyphen (c : Char) : Bool :=
  isLowerAlnum c || c.toNat == 45

/-- Matches `[a-z0-9-]*[a-z0-9]`: every character in the class, last one
alphanumeric.  The empty list matches (the group is optional). -/
def tailPattern : List Char → Bool
  | [] => true
  | [c] => isLowerAlnum c
  | c :: rest => isLowerAlnumHyphen c && tailPattern rest

/-- Full-string match of the validation regex
`[a-z0-9]([a-z0-9-]*[a-z0-9])?` anchored at both ends. -/
def matchesSubdomainPattern (s : String) : Bool :=
  match s.data with
  | [] => false
  | c :: rest => isLowerAlnum c && tailPattern rest

/-- Mirrors `ValidateSubdomain` of `internal/config/reserved.go`: lowercases
the input, then checks length, reservation, the regex and consecutive
hyphens, in the order of the source. -/
def ValidateSubdomain (subdomain : String) : Bool × String :=
  if (lowerStr subdomain).length < 3 then
    (false, "Subdomain must be at least 3 characters long")
  else if (lowerStr subdomain).length > 63 then
    (false, "Subdomain cannot exceed 63 characters")
  else if IsReservedSubdomain (lowerStr subdomain) then
    (false, "This subdomain is reserved for system use. Please choose a different name.")
  else if !matchesSubdomainPattern (lowerStr subdomain) then
    (false, "Subdomain must contain only lowercase letters, numbers, and hyphens. It cannot start or end with a hyphen.")
  else if goContains (lowerStr subdomain) "--" then
    (false, "Subdomain cannot contain consecutive hyphens")
  else
    (true, "")

/-- Row of the `tunnels` registry table (the columns the handlers read). -/
structure TunnelRow where
  id : String
  userId : String
  subdomain : String
  localPort : Nat
  authToken : String
  isActive : Bool
deriving DecidableEq

/-- The proxy lookup
`SELECT id, user_id, local_port, is_active FROM tunnels
 WHERE subdomain = $1 AND is_active = true`:
first row whose subdomain matches AND whose is_active column is true;
`none` models `sql.ErrNoRows`. -/
def queryActiveBySubdomain (db : List TunnelRow) (sub : String) :
    Option TunnelRow :=
  db.find? (fun r => r.subdomain == sub && r.isActive)

/-- Body written to the browser by `HandleSubdomain`, by branch. -/
inductive ProxyBody where
  | jsonInvalidSubdomain
  | jsonNoTunnel
  | tunnelNotFoundPage (subdomain : String)
  | tunnelOfflinePage (subdomain : String)
  | tunnelConnectionLostPage (subdomain : String)
  | forwardedWS (tunnelId : String)
  | forwardedHTTP (tunnelId : String)
deriving DecidableEq

/-- Status plus body of the proxy front-end; forwarded requests delegate the
status to the tunnel protocol and are recorded with status 0. -/
structure ProxyResponse where
  status : Nat
  body : ProxyBody
deriving DecidableEq

/-- Mirrors `isWebSocketUpgrade`: lowercased Connection header equals
"upgrade" and lowercased Upgrade header equals "websocket". -/
def isWebSocketUpgrade (connectionHeader upgradeHeader : String) : Bool :=
  lowerStr connectionHeader == "upgrade" && lowerStr upgradeHeader == "websocket"

/-- Mirrors `HandleSubdomain` of the proxy handler: split the host on dots,
reject short hosts and "localhost", look the subdomain up with the
is_active-filtered query, then walk the error-page branches and finally
dispatch to the tunnel protocol.  `activeTunnels` is the set of keys of the
in-memory `activeTunnels` map. -/
def HandleSubdomain (db : List TunnelRow) (activeTunnels : List String)
    (host : String) (connectionHeader upgradeHeader : String) : ProxyResponse :=
  if (splitDot host.data).length < 2 then
    ⟨404, ProxyBody.jsonInvalidSubdomain⟩
  else if String.mk ((splitDot host.data).headD []) == "localhost" then
    ⟨404, ProxyBody.jsonNoTunnel⟩
  else
    match queryActiveBySubdomain db (String.mk ((splitDot host.data).headD [])) with
    | none => ⟨404, ProxyBody.tunnelNotFoundPage (String.mk ((splitDot host.data).headD []))⟩
    | some row =>
      if !row.isActive then
        ⟨503, ProxyBody.tunnelOfflinePage (String.mk ((splitDot host.data).headD []))⟩
      else if !(activeTunnels.contains row.id) then
        ⟨503, ProxyBody.tunnelConnectionLostPage (String.mk ((splitDot host.data).headD []))⟩
      else if isWebSocketUpgrade connectionHeader upgradeHeader then
        ⟨0, ProxyBody.forwardedWS row.id⟩
      else
        ⟨0, ProxyBody.forwardedHTTP row.id⟩

/-- Registry row for the S2 scenario: tunnel "demo" exists, is_active false. -/
def demoOfflineRow : TunnelRow :=
  ⟨"t1", "u1", "demo", 3000, "tok-1", false⟩

/-- Model of the response writer handed to the tunnel protocol.  It is gin's
writer: `WriteHeader` only records the status code, and the header map plus
status are flushed to the wire on the first `Write` (or, if nothing is
written, when the handler returns).  `sentStatus`, `sentHeaders` and
`sentBody` are what the browser actually receives. -/
structure ResponseWriter where
  headerMap : List (String × String)
  status : Nat
  wroteHeader : Bool
  sentStatus : Option Nat
  sentHeaders : List (String × String)
  sentBody : String
deriving DecidableEq

/-- Writer at the start of a handler; gin initialises the status to 200. -/
def freshWriter : ResponseWriter :=
  ⟨[], 200, false, none, [], ""⟩

/-- Mirrors `http.Header.Set`: replace the value of an existing key, else
append the pair (MIME canonicalisation of keys is not modelled; the frames
in question use canonical keys). -/
def setHeader : List (String × String) → String → String → List (String × String)
  | [], name, value => [(name, value)]
  | (k, v) :: rest, name, value =>
    if k == name then (k, value) :: rest else (k, v) :: setHeader rest name value

/-- Mirrors `w.Header().Set(name, value)`. -/
def headerSet (w : ResponseWriter) (name value : String) : ResponseWriter :=
  { w with headerMap := setHeader w.headerMap name value }

/-- Mirrors gin's `responseWriter.WriteHeader`: record the code if positive
and different, ignore it after the header was flushed; nothing is sent yet. -/
def ginWriteHeader (w : ResponseWriter) (code : Nat) : ResponseWriter :=
  if code > 0 && w.status != code then
    if w.wroteHeader then w else { w with status := code }
  else w

/-- Mirrors gin's `WriteHeaderNow`: flush status and the current header map
once. -/
def writeHeaderNow (w : ResponseWriter) : ResponseWriter :=
  if w.wroteHeader then w
  else
    { w with wroteHeader := true, sentStatus := some w.status,
             sentHeaders := w.headerMap }

/-- Mirrors `w.Write(data)`: flush the header section if needed, then append
the bytes to the response body. -/
def ginWrite (w : ResponseWriter) (data : String) : ResponseWriter :=
  { writeHeaderNow w with sentBody := (writeHeaderNow w).sentBody ++ data }

/-- Mirrors `writeHTTPResponse` of the tunnel protocol: `WriteHeader` when
the frame carries a positive status, then `Header().Set` for every frame
header, then `Write` when the body is non-empty.  No header is filtered. -/
def writeHTTPResponse (w : ResponseWriter) (response : TunnelMessage) :
    ResponseWriter :=
  let w1 := if response.status > 0 then ginWriteHeader w response.status else w
  let w2 := response.headers.foldl (fun acc p => headerSet acc p.1 p.2) w1
  if response.body.length > 0 then ginWrite w2 response.body else w2

/-- Implicit flush when the handler chain returns without writing a body. -/
def finalizeResponse (w : ResponseWriter) : ResponseWriter :=
  writeHeaderNow w

/-- Header application of `writeHTTPResponse` in isolation: fold
`http.Header.Set` over the frame's header pairs. -/
def applyHeaders (hs : List (String × String)) : List (String × String) :=
  hs.foldl (fun acc p => setHeader acc p.1 p.2) []

/-- The S1 response frame of the spec:
`http_response with id t1-1, status 200, Content-Type text/plain, body hi`. -/
def s1Response : TunnelMessage :=
  mkResponseMsg "t1-1" 200 [("Content-Type", "text/plain")] "hi" 0

/-- What the agent side does about one forwarded exchange: deliver a
response frame `afterSec` seconds after the request frame was written,
never respond, or have the whole session torn down (`Close`) `afterSec`
seconds in. -/
inductive AgentReply where
  | replies (msg : TunnelMessage) (afterSec : Nat)
  | never
  | sessionClosed (afterSec : Nat)
deriving DecidableEq

/-- Terminal observation of the waiting caller of
`HandleIncomingHTTPRequest`.  `nilPanic` is the closed-channel wakeup: the
`select` receives the nil value from the channel closed by `Close`, and
`writeHTTPResponse` is then called on a nil message (a nil-pointer
dereference; no status is written by this handler). -/
inductive ExchangeOutcome where
  | bodyReadFailed500
  | sendFailed502
  | delivered (msg : TunnelMessage)
  | timeout504
  | nilPanic
deriving DecidableEq

/-- Mirrors `Close` of the tunnel protocol: the range loop closes and
deletes every pending entry. -/
def ProtocolClose (pending : List String) : List String :=
  pending.foldl (fun remaining id => remaining.erase id) pending

/-- Mirrors the control flow of `HandleIncomingHTTPRequest` for one
exchange whose correlation id is `requestID`: read the body, insert the
pending channel, send the `http_request` frame, then `select` between the
response channel and the 30-second timer.  The channel is woken early with
nil when `Close` runs (`AgentReply.sessionClosed` before the timer).
Returns the caller's outcome and the pending table afterwards. -/
def HandleIncomingHTTPRequest (pending : List String) (requestID : String)
    (readBodyOk sendOk : Bool) (reply : AgentReply) :
    ExchangeOutcome × List String :=
  if !readBodyOk then (ExchangeOutcome.bodyReadFailed500, pending)
  else if !sendOk then
    (ExchangeOutcome.sendFailed502, (requestID :: pending).erase requestID)
  else
    match reply with
    | AgentReply.replies msg t =>
      if t < 30 then
        (ExchangeOutcome.delivered msg, (requestID :: pending).erase requestID)
      else (ExchangeOutcome.timeout504, (requestID :: pending).erase requestID)
    | AgentReply.never =>
      (ExchangeOutcome.timeout504, (requestID :: pending).erase requestID)
    | AgentReply.sessionClosed t =>
      if t < 30 then (ExchangeOutcome.nilPanic, ProtocolClose (requestID :: pending))
      else (ExchangeOutcome.timeout504, (requestID :: pending).erase requestID)

/-- True when neither a response nor a teardown reaches the waiter before
the 30-second timer fires. -/
def timesOut : AgentReply → Bool
  | AgentReply.replies _ t => decide (30 ≤ t)
  | AgentReply.never => true
  | AgentReply.sessionClosed t => decide (30 ≤ t)

/-- Heartbeat bookkeeping of `handleTunnelConnection`: the tracked
`lastHeartbeat` instant, whether the monitoring loop has exited
(`dead`), and the registry's is_active column for the tunnel. -/
structure HeartbeatState where
  lastHeartbeat : Nat
  dead : Bool
  isActiveDB : Bool
deriving DecidableEq

/-- One firing of the 15-second ticker: if more than 45 seconds passed
since `lastHeartbeat`, mark the tunnel inactive in the registry and leave
the loop (teardown); otherwise a control-frame ping is sent and the state
is unchanged. -/
def heartbeatTick (now : Nat) (s : HeartbeatState) : HeartbeatState :=
  if now - s.lastHeartbeat > 45 then { s with dead := true, isActiveDB := false }
  else s

/-- Mirrors the `SetPingHandler` callback: a control-frame ping from the
agent refreshes `lastHeartbeat` (and answers with a pong). -/
def onControlPing (now : Nat) (s : HeartbeatState) : HeartbeatState :=
  { s with lastHeartbeat := now }

/-- Mirrors the `SetPongHandler` callback: a control-frame pong refreshes
`lastHeartbeat`. -/
def onControlPong (now : Nat) (s : HeartbeatState) : HeartbeatState :=
  { s with lastHeartbeat := now }

/-- Mirrors the read loop: any inbound frame refreshes `lastHeartbeat`. -/
def onInboundFrame (now : Nat) (s : HeartbeatState) : HeartbeatState :=
  { s with lastHeartbeat := now }

/-- Decimal digit character for a digit value; values ten and above do not
occur in the positions where this is applied. -/
def digitChar : Nat → Char
  | 0 => '0'
  | 1 => '1'
  | 2 => '2'
  | 3 => '3'
  | 4 => '4'
  | 5 => '5'
  | 6 => '6'
  | 7 => '7'
  | 8 => '8'
  | _ => '9'

/-- Decimal digit list of a natural number, most significant digit first,
as Go `fmt.Sprintf` with verb d renders a non-negative integer. -/
def natDecDigits (n : Nat) : List Char :=
  if n < 10 then [digitChar n]
  else natDecDigits (n / 10) ++ [digitChar (n % 10)]
termination_by n
decreasing_by exact Nat.div_lt_self (by omega) (by omega)

/-- Decimal rendering of a natural number as a string. -/
def natDec (n : Nat) : String :=
  String.mk (natDecDigits n)

/-- Evaluation map recovering the number from its decimal digit list. -/
def decVal (l : List Char) : Nat :=
  l.foldl (fun acc c => acc * 10 + (c.toNat - 48)) 0

/-- Correlation id format of the tunnel protocol:
`fmt.Sprintf("%s-%d", tunnelID, count)` for HTTP requests and
`fmt.Sprintf("%s-ws-%d", tunnelID, count)` for WebSocket upgrades. -/
def fmtID (tunnelID : String) (isWS : Bool) (count : Nat) : String :=
  if isWS then tunnelID ++ "-ws-" ++ natDec count
  else tunnelID ++ "-" ++ natDec count

/-- The id-generation state of a `TunnelProtocol` value: its tunnel id and
the shared `requestCount` counter. -/
structure TunnelProtocolState where
  tunnelID : String
  requestCount : Nat
deriving DecidableEq

/-- Mirrors the id allocation shared by `HandleIncomingHTTPRequest` and
`HandleWebSocketUpgrade`: `tp.requestCount++` followed by the Sprintf. -/
def allocRequestID (s : TunnelProtocolState) (isWS : Bool) :
    String × TunnelProtocolState :=
  (fmtID s.tunnelID isWS (s.requestCount + 1),
   ⟨s.tunnelID, s.requestCount + 1⟩)

/-- Correlation ids produced by a sequence of exchanges on one session
(`true` entries are WebSocket upgrades, `false` entries HTTP requests). -/
def idsFrom (s : TunnelProtocolState) : List Bool → List String
  | [] => []
  | isWS :: rest =>
    (allocRequestID s isWS).1 :: idsFrom (allocRequestID s isWS).2 rest

/-- Status and JSON message returned by the management handlers. -/
structure ApiResult where
  status : Nat
  message : String
deriving DecidableEq

/-- The registry update `UPDATE tunnels SET is_active = false WHERE id=$1`
(with or without the last_seen touch). -/
def markInactive (db : List TunnelRow) (tunnelID : String) : List TunnelRow :=
  db.map fun r => if r.id == tunnelID then { r with isActive := false } else r

/-- The registry update of a successful connect:
`UPDATE tunnels SET is_active = true, last_seen = NOW(), connected_ip = $1
WHERE id = $2`. -/
def markActive (db : List TunnelRow) (tunnelID : String) : List TunnelRow :=
  db.map fun r => if r.id == tunnelID then { r with isActive := true } else r

/-- Mirrors `StopTunnel`: authentication context, id parameter, ownership
lookup, then either the reconcile branch (no live session in the
active-tunnels map) or terminate-then-mark-inactive.  `dbUpdateOk` models
whether the UPDATE succeeds, `terminateOk` whether the terminate frame can
be written.  (Registry SELECT errors other than no-rows are not modelled:
the registry is a pure list.) -/
def StopTunnel (db : List TunnelRow) (activeTunnels : List String)
    (userId? : Option String) (tunnelID : String)
    (dbUpdateOk terminateOk : Bool) : ApiResult × List TunnelRow :=
  match userId? with
  | none => (⟨401, "User not authenticated"⟩, db)
  | some uid =>
    if tunnelID == "" then (⟨400, "Tunnel ID is required"⟩, db)
    else
      match db.find? (fun r => r.id == tunnelID) with
      | none => (⟨404, "Tunnel not found"⟩, db)
      | some row =>
        if row.userId != uid then (⟨403, "Tunnel does not belong to user"⟩, db)
        else if !(activeTunnels.contains tunnelID) then
          if dbUpdateOk then
            (⟨200, "Tunnel was not connected; marked inactive"⟩,
              markInactive db tunnelID)
          else (⟨400, "Tunnel is not currently active"⟩, db)
        else if !terminateOk then (⟨500, "Failed to stop tunnel"⟩, db)
        else
          (⟨200, "Tunnel stop signal sent successfully"⟩,
            if dbUpdateOk then markInactive db tunnelID else db)

/-- Side effects observable at the agent connect endpoint before and after
the early credential check: how many registry reads were issued and
whether the WebSocket upgrade was performed. -/
structure ConnectEffects where
  registryReads : Nat
  upgraded : Bool
deriving DecidableEq

/-- Terminal observation of `ConnectTunnel` as far as it is modelled:
an HTTP rejection before the upgrade, an early `terminate` frame after the
upgrade (database failure), or an installed running session. -/
inductive ConnectOutcome where
  | rejected (status : Nat) (message : String)
  | terminatedEarly (errorMessage : String)
  | sessionRunning (tunnelId : String)
deriving DecidableEq

/-- Mirrors the prefix of `ConnectTunnel` up to installing the session:
authentication context, the `X-Tunnel-ID`/`X-Tunnel-Auth` header check
(absent headers read as the empty string), registry lookup, ownership and
auth-token comparison, WebSocket upgrade, and the mark-active update. -/
def ConnectTunnel (db : List TunnelRow) (userId? : Option String)
    (xTunnelID xTunnelAuth : String) (upgradeOk dbOk : Bool) :
    ConnectOutcome × ConnectEffects × List TunnelRow :=
  match userId? with
  | none => (ConnectOutcome.rejected 401 "User not authenticated", ⟨0, false⟩, db)
  | some uid =>
    if xTunnelID == "" || xTunnelAuth == "" then
      (ConnectOutcome.rejected 400 "Missing tunnel credentials", ⟨0, false⟩, db)
    else
      match db.find? (fun r => r.id == xTunnelID) with
      | none => (ConnectOutcome.rejected 404 "Tunnel not found", ⟨1, false⟩, db)
      | some row =>
        if row.userId != uid then
          (ConnectOutcome.rejected 403 "Tunnel does not belong to user",
            ⟨1, false⟩, db)
        else if row.authToken != xTunnelAuth then
          (ConnectOutcome.rejected 401 "Invalid tunnel auth token",
            ⟨1, false⟩, db)
        else if !upgradeOk then
          (ConnectOutcome.rejected 0 "upgrade failed", ⟨1, false⟩, db)
        else if !dbOk then
          (ConnectOutcome.terminatedEarly "Database error", ⟨1, true⟩, db)
        else
          (ConnectOutcome.sessionRunning xTunnelID, ⟨2, true⟩,
            markActive db xTunnelID)

/-- Effect of one inbound agent frame as dispatched by
`HandleTunnelMessage`: a frame written back to the agent, a pending slot
completed, a frame written to the browser-side WebSocket, or only a log
line. -/
inductive InboundEffect where
  | sendToAgent (msg : TunnelMessage)
  | completeSlot (id : String)
  | browserFrame (messageType : Nat) (payload : String)
  | logOnly
deriving DecidableEq

/-- Mirrors `HandleTunnelMessage` and its per-type handlers:
`http_response`/`websocket_upgrade_response` complete the pending slot when
one exists, `websocket_data` is handled by `handleWebSocketData` which only
logs the id and returns, `ping` answers with a pong frame, `pong` and
unknown types only log. -/
def HandleTunnelMessage (pending : List String) (now : Nat)
    (m : TunnelMessage) : List InboundEffect :=
  if m.type == "http_response" then
    if pending.contains m.id then [InboundEffect.completeSlot m.id]
    else [InboundEffect.logOnly]
  else if m.type == "websocket_upgrade_response" then
    if pending.contains m.id then [InboundEffect.completeSlot m.id]
    else [InboundEffect.logOnly]
  else if m.type == "websocket_data" then
    [InboundEffect.logOnly]
  else if m.type == "ping" then
    [InboundEffect.sendToAgent (mkDataMsg "pong" m.id [] "" now)]
  else if m.type == "pong" then
    [InboundEffect.logOnly]
  else
    [InboundEffect.logOnly]

/-- Mirrors `handleWebSocketTunnel` after a 101 upgrade response: the
browser-to-agent bridging loop reads browser frames (type number and
payload) and emits `websocket_data` frames with the upgrade's correlation
id; it writes nothing back to the browser socket. -/
def handleWebSocketTunnel (requestID : String) (now : Nat)
    (browserFrames : List (Nat × String)) : List TunnelMessage :=
  browserFrames.map fun f =>
    mkDataMsg "websocket_data" requestID [("message_type", natDec f.1)] f.2 now

example : (ValidateSubdomain "my-app").1 = true := by decide

example : (ValidateSubdomain "demo").1 = false := by decide

example : (ValidateSubdomain "a--b").1 = false := by decide

example : (ValidateSubdomain "-abc").1 = false := by decide

example :
    HandleSubdomain [⟨"t1", "u1", "demo", 3000, "tok-1", true⟩] ["t1"]
      "demo.example.com" "" "" = ⟨0, ProxyBody.forwardedHTTP "t1"⟩ := by
  decide

example :
    HandleSubdomain [] [] "gone.example.com" "" "" =
      ⟨404, ProxyBody.tunnelNotFoundPage "gone"⟩ := by
  decide

/-- C2: with the only registry row being tunnel "demo" with is_active =
false, a request for host demo.example.com is answered with the 404
not-found page, not the 503 offline page; moreover the 503 offline branch
of `HandleSubdomain` is unreachable for every database and request, because
the lookup query itself filters on is_active = true while the offline
branch requires the returned row to have is_active = false. -/
theorem C2_offline_tunnel_gets_not_found_page :
    HandleSubdomain [demoOfflineRow] [] "demo.example.com" "" "" =
      ⟨404, ProxyBody.tunnelNotFoundPage "demo"⟩ ∧
    ∀ db activeTunnels host ch uh sub,
      (HandleSubdomain db activeTunnels host ch uh).body ≠
        ProxyBody.tunnelOfflinePage sub := by
  refine ⟨by decide, ?_⟩
  intro db activeTunnels host ch uh sub
  unfold HandleSubdomain
  split
  · simp
  split
  · simp
  split
  · simp
  next row heq =>
    unfold queryActiveBySubdomain at heq
    have hrow := List.find?_some heq
    simp only [Bool.and_eq_true, beq_iff_eq] at hrow
    simp [hrow.2]
    split_ifs <;> simp

lemma foldl_headerSet_eq (hs : List (String × String)) (w : ResponseWriter) :
    hs.foldl (fun acc p => headerSet acc p.1 p.2) w =
      { w with headerMap := hs.foldl (fun m p => setHeader m p.1 p.2) w.headerMap } := by
  induction hs generalizing w with
  | nil => rfl
  | cons p rest ih =>
    rw [List.foldl_cons, List.foldl_cons, ih]
    simp [headerSet]

/-- C3 counterexample: a response frame whose headers include the hop-by-hop
header Connection is delivered to the browser WITH that header: nothing in
`writeHTTPResponse` strips hop-by-hop headers, refuting the
"minus hop-by-hop headers" part of the claim. -/
theorem C3_counterexample :
    ("Connection", "close") ∈
      (finalizeResponse (writeHTTPResponse freshWriter
        (mkResponseMsg "t1-2" 200 [("Connection", "close")] "hi" 0))).sentHeaders ∧
    (finalizeResponse (writeHTTPResponse freshWriter
        (mkResponseMsg "t1-2" 200 [("Connection", "close")] "hi" 0))).sentHeaders ≠ [] := by
  decide

/-- C3 (amended): for every `http_response` frame delivered in time, the
browser receives exactly the frame's status code, ALL of its headers
verbatim (the code performs no hop-by-hop stripping), and the body bytes;
in particular for S1 it receives 200 with Content-Type text/plain and body
"hi".  (Headers reach the wire despite being set after `WriteHeader`
because gin's writer defers the flush to the first `Write`.) -/
lemma writeHTTPResponse_fresh (m : TunnelMessage) (h : 0 < m.status) :
    finalizeResponse (writeHTTPResponse freshWriter m) =
      ⟨applyHeaders m.headers, m.status, true, some m.status,
       applyHeaders m.headers, m.body⟩ := by
  have hgin : ginWriteHeader freshWriter m.status =
      ⟨[], m.status, false, none, [], ""⟩ := by
    rcases eq_or_ne m.status 200 with h200 | h200
    · simp [ginWriteHeader, freshWriter, h200]
    · simp [ginWriteHeader, freshWriter, h, Ne.symm h200]
  rcases eq_or_ne m.body.length 0 with hb | hb
  · have hbody : m.body = "" := by
      apply String.ext
      simpa using List.length_eq_zero.mp hb
    simp [writeHTTPResponse, finalizeResponse, hgin, foldl_headerSet_eq,
      writeHeaderNow, hb, hbody, applyHeaders, h]
  · simp [writeHTTPResponse, finalizeResponse, hgin, foldl_headerSet_eq,
      writeHeaderNow, ginWrite, Nat.pos_of_ne_zero hb, applyHeaders, h]

/-- C3 (amended): for every `http_response` frame delivered in time, the
browser receives exactly the frame's status code, ALL of its headers
verbatim (the code performs no hop-by-hop stripping), and the body bytes;
in particular for S1 it receives 200 with Content-Type text/plain and body
"hi".  (Headers reach the wire despite being set after `WriteHeader`
because gin's writer defers the flush to the first `Write`.) -/
theorem C3_amended_response_verbatim (m : TunnelMessage) (h : 0 < m.status) :
    (finalizeResponse (writeHTTPResponse freshWriter m)).sentStatus = some m.status ∧
    (finalizeResponse (writeHTTPResponse freshWriter m)).sentHeaders = applyHeaders m.headers ∧
    (finalizeResponse (writeHTTPResponse freshWriter m)).sentBody = m.body ∧
    (finalizeResponse (writeHTTPResponse freshWriter s1Response)).sentStatus = some 200 ∧
    (finalizeResponse (writeHTTPResponse freshWriter s1Response)).sentHeaders =
      [("Content-Type", "text/plain")] ∧
    (finalizeResponse (writeHTTPResponse freshWriter s1Response)).sentBody = "hi" := by
  rw [writeHTTPResponse_fresh m h, writeHTTPResponse_fresh s1Response (by decide)]
  exact ⟨rfl, rfl, rfl, rfl, by decide, rfl⟩

/-- C3 witness: the amended theorem applied to the S1 response frame. -/
theorem C3_amended_witness :
    (finalizeResponse (writeHTTPResponse freshWriter s1Response)).sentStatus =
      some s1Response.status ∧
    (finalizeResponse (writeHTTPResponse freshWriter s1Response)).sentHeaders =
      applyHeaders s1Response.headers ∧
    (finalizeResponse (writeHTTPResponse freshWriter s1Response)).sentBody =
      s1Response.body ∧
    (finalizeResponse (writeHTTPResponse freshWriter s1Response)).sentStatus = some 200 ∧
    (finalizeResponse (writeHTTPResponse freshWriter s1Response)).sentHeaders =
      [("Content-Type", "text/plain")] ∧
    (finalizeResponse (writeHTTPResponse freshWriter s1Response)).sentBody = "hi" :=
  C3_amended_response_verbatim s1Response (by decide)

lemma ProtocolClose_eq_nil (pending : List String) : ProtocolClose pending = [] := by
  suffices h : ∀ l : List String,
      List.foldl (fun remaining id => remaining.erase id) l l = [] from h pending
  intro l
  induction l with
  | nil => rfl
  | cons a l ih =>
    rw [List.foldl_cons, List.erase_cons_head]
    exact ih

/-- C4 counterexample: for an emitted `http_request` frame whose session is
torn down during the wait, the outcome is the closed-channel nil wakeup,
which is none of the three alternatives of the claim (response delivered,
504, 502): the teardown path never produces a 502 for the waiter. -/
theorem C4_counterexample :
    (HandleIncomingHTTPRequest [] "t1-1" true true (AgentReply.sessionClosed 0)).1 =
      ExchangeOutcome.nilPanic ∧
    (∀ msg, ExchangeOutcome.nilPanic ≠ ExchangeOutcome.delivered msg) ∧
    ExchangeOutcome.nilPanic ≠ ExchangeOutcome.timeout504 ∧
    ExchangeOutcome.nilPanic ≠ ExchangeOutcome.sendFailed502 := by
  refine ⟨rfl, fun msg h => ExchangeOutcome.noConfusion h, by decide, by decide⟩

/-- C4 (amended): for every emitted `http_request` frame exactly one of
response delivered / 504 / nil wakeup on teardown occurs; if neither a
response nor a teardown arrives within 30 seconds the caller gets 504; and
in every case no pending entry for the correlation id remains. -/
theorem C4_amended_exchange_trichotomy (pending : List String)
    (requestID : String) (reply : AgentReply) (hfresh : requestID ∉ pending) :
    ((∃ msg, (HandleIncomingHTTPRequest pending requestID true true reply).1 =
        ExchangeOutcome.delivered msg) ∨
      (HandleIncomingHTTPRequest pending requestID true true reply).1 =
        ExchangeOutcome.timeout504 ∨
      (HandleIncomingHTTPRequest pending requestID true true reply).1 =
        ExchangeOutcome.nilPanic) ∧
    requestID ∉ (HandleIncomingHTTPRequest pending requestID true true reply).2 ∧
    (timesOut reply = true →
      (HandleIncomingHTTPRequest pending requestID true true reply).1 =
        ExchangeOutcome.timeout504) := by
  cases reply with
  | replies msg t =>
    by_cases ht : t < 30 <;>
      simp [HandleIncomingHTTPRequest, timesOut, ht, List.erase_cons_head,
        hfresh]
  | never =>
    simp [HandleIncomingHTTPRequest, timesOut, List.erase_cons_head, hfresh]
  | sessionClosed t =>
    by_cases ht : t < 30 <;>
      simp [HandleIncomingHTTPRequest, timesOut, ht, List.erase_cons_head,
        ProtocolClose_eq_nil, hfresh]

/-- C4 witness: the amended trichotomy applied to a silent agent on a fresh
pending table; the outcome is the 504 branch. -/
theorem C4_amended_witness :
    ((∃ msg, (HandleIncomingHTTPRequest [] "t1-4" true true AgentReply.never).1 =
        ExchangeOutcome.delivered msg) ∨
      (HandleIncomingHTTPRequest [] "t1-4" true true AgentReply.never).1 =
        ExchangeOutcome.timeout504 ∨
      (HandleIncomingHTTPRequest [] "t1-4" true true AgentReply.never).1 =
        ExchangeOutcome.nilPanic) ∧
    "t1-4" ∉ (HandleIncomingHTTPRequest [] "t1-4" true true AgentReply.never).2 ∧
    (timesOut AgentReply.never = true →
      (HandleIncomingHTTPRequest [] "t1-4" true true AgentReply.never).1 =
        ExchangeOutcome.timeout504) :=
  C4_amended_exchange_trichotomy [] "t1-4" AgentReply.never (by decide)

/-- C5: teardown during the wait cancels every in-flight exchange (`Close`
empties the pending table), but the waiting caller is NOT returned a 502:
the waiter is woken by the closed channel with a nil message, which
`writeHTTPResponse` then dereferences.  The only 502 in the code is the
send-failure branch. -/
theorem C5_teardown_cancels_without_502 :
    ProtocolClose ["t1-7", "t1-8"] = [] ∧
    (HandleIncomingHTTPRequest [] "t1-9" true true (AgentReply.sessionClosed 5)).1 =
      ExchangeOutcome.nilPanic ∧
    ExchangeOutcome.nilPanic ≠ ExchangeOutcome.sendFailed502 ∧
    (HandleIncomingHTTPRequest [] "t1-9" true true (AgentReply.sessionClosed 5)).2 = [] := by
  exact ⟨by decide, rfl, by decide, by decide⟩

/-- C6: once more than 45 seconds have elapsed since the last heartbeat
(and no further ping, pong or inbound frame refreshes it), some ticker
firing at a multiple of 15 seconds occurs within the next 15 seconds, and
at that tick the session is marked dead and the registry's is_active is
set to false.  Control pings, control pongs and inbound frames all refresh
the same `lastHeartbeat`. -/
theorem C6_heartbeat_timeout_dies_within_tick (s : HeartbeatState) (now : Nat)
    (h : s.lastHeartbeat + 45 < now) :
    ∃ tick : Nat, 15 ∣ tick ∧ now ≤ tick ∧ tick ≤ now + 15 ∧
      (heartbeatTick tick s).dead = true ∧
      (heartbeatTick tick s).isActiveDB = false ∧
      (∀ t : Nat, (onControlPing t s).lastHeartbeat = t ∧
        (onControlPong t s).lastHeartbeat = t ∧
        (onInboundFrame t s).lastHeartbeat = t) := by
  have h1 := Nat.div_add_mod (now + 14) 15
  have h2 : (now + 14) % 15 < 15 := Nat.mod_lt _ (by omega)
  have hta : now ≤ 15 * ((now + 14) / 15) := by omega
  have htb : 15 * ((now + 14) / 15) ≤ now + 15 := by omega
  have hcond : 15 * ((now + 14) / 15) - s.lastHeartbeat > 45 := by omega
  refine ⟨15 * ((now + 14) / 15), dvd_mul_right 15 _, hta, htb, ?_, ?_,
    fun t => ⟨rfl, rfl, rfl⟩⟩
  · simp [heartbeatTick, hcond]
  · simp [heartbeatTick, hcond]

/-- C6 witness: a session whose last heartbeat was at second 0, observed at
second 46. -/
theorem C6_witness :
    ∃ tick : Nat, 15 ∣ tick ∧ 46 ≤ tick ∧ tick ≤ 46 + 15 ∧
      (heartbeatTick tick ⟨0, false, true⟩).dead = true ∧
      (heartbeatTick tick ⟨0, false, true⟩).isActiveDB = false ∧
      (∀ t : Nat, (onControlPing t ⟨0, false, true⟩).lastHeartbeat = t ∧
        (onControlPong t ⟨0, false, true⟩).lastHeartbeat = t ∧
        (onInboundFrame t ⟨0, false, true⟩).lastHeartbeat = t) :=
  C6_heartbeat_timeout_dies_within_tick ⟨0, false, true⟩ 46 (by decide)

lemma digitChar_toNat (d : Nat) (h : d < 10) : (digitChar d).toNat = 48 + d := by
  interval_cases d <;> rfl

lemma digitChar_ne_w (d : Nat) : digitChar d ≠ 'w' := by
  unfold digitChar
  split <;> decide

lemma mem_natDecDigits_ne_w (n : Nat) : ∀ c ∈ natDecDigits n, c ≠ 'w' := by
  induction n using Nat.strong_induction_on with
  | _ n ih =>
    rw [natDecDigits]
    split
    · intro c hc
      simp only [List.mem_singleton] at hc
      subst hc
      exact digitChar_ne_w n
    next h =>
      intro c hc
      rcases List.mem_append.mp hc with h1 | h2
      · exact ih (n / 10) (Nat.div_lt_self (by omega) (by omega)) c h1
      · simp only [List.mem_singleton] at h2
        subst h2
        exact digitChar_ne_w _

lemma natDecDigits_ne_nil (n : Nat) : natDecDigits n ≠ [] := by
  rw [natDecDigits]
  split <;> simp

lemma decVal_natDecDigits (n : Nat) : decVal (natDecDigits n) = n := by
  induction n using Nat.strong_induction_on with
  | _ n ih =>
    rw [natDecDigits]
    split
    next h =>
      simp [decVal, digitChar_toNat n h]
    next h =>
      have hd : n / 10 < n := Nat.div_lt_self (by omega) (by omega)
      have hm : n % 10 < 10 := Nat.mod_lt _ (by omega)
      have hrec : decVal (natDecDigits (n / 10)) = n / 10 := ih (n / 10) hd
      have hdm := Nat.div_add_mod n 10
      rw [decVal, List.foldl_append]
      simp only [List.foldl_cons, List.foldl_nil]
      rw [show List.foldl (fun acc c => acc * 10 + (c.toNat - 48)) 0
            (natDecDigits (n / 10)) = n / 10 from hrec, digitChar_toNat _ hm]
      omega

lemma natDecDigits_inj {a b : Nat} (h : natDecDigits a = natDecDigits b) :
    a = b := by
  have h2 := congrArg decVal h
  rwa [decVal_natDecDigits, decVal_natDecDigits] at h2

lemma fmtID_data (tunnelID : String) (isWS : Bool) (count : Nat) :
    (fmtID tunnelID isWS count).data =
      tunnelID.data ++
        ((if isWS then ['-', 'w', 's', '-'] else ['-']) ++ natDecDigits count) := by
  cases isWS <;> simp [fmtID, natDec, String.data_append]

lemma fmtID_inj (tunnelID : String) (w1 w2 : Bool) (c1 c2 : Nat)
    (h : fmtID tunnelID w1 c1 = fmtID tunnelID w2 c2) : c1 = c2 := by
  have hd := congrArg String.data h
  rw [fmtID_data, fmtID_data] at hd
  have hd2 := List.append_cancel_left hd
  cases w1 <;> cases w2
  · exact natDecDigits_inj (by simpa using hd2)
  · exfalso
    have hh : natDecDigits c1 = 'w' :: 's' :: '-' :: natDecDigits c2 := by
      simpa using hd2
    exact mem_natDecDigits_ne_w c1 'w' (hh ▸ List.mem_cons_self _ _) rfl
  · exfalso
    have hh : natDecDigits c2 = 'w' :: 's' :: '-' :: natDecDigits c1 := by
      simpa using hd2.symm
    exact mem_natDecDigits_ne_w c2 'w' (hh ▸ List.mem_cons_self _ _) rfl
  · exact natDecDigits_inj (by simpa using hd2)

lemma mem_idsFrom (s : TunnelProtocolState) (ops : List Bool) (id : String)
    (h : id ∈ idsFrom s ops) :
    ∃ w c, s.requestCount < c ∧ id = fmtID s.tunnelID w c := by
  induction ops generalizing s with
  | nil => simp [idsFrom] at h
  | cons op rest ih =>
    rw [idsFrom] at h
    rcases List.mem_cons.mp h with h | h
    · exact ⟨op, s.requestCount + 1, by omega, h⟩
    · obtain ⟨w, c, hc, he⟩ := ih ⟨s.tunnelID, s.requestCount + 1⟩ h
      exact ⟨w, c, by simp at hc; omega, he⟩

/-- C9: the counter shared by HTTP forwarding and WebSocket upgrades is
incremented on every allocation, each id has the format
tunnelID-count or tunnelID-ws-count for the incremented counter value, and
every sequence of exchanges on one session yields pairwise-distinct
correlation ids.  (Interleaving of concurrent handler goroutines is not
modelled; allocations are sequential.) -/
theorem C9_correlation_ids_distinct (s : TunnelProtocolState) (ops : List Bool) :
    (∀ isWS, (allocRequestID s isWS).2.requestCount = s.requestCount + 1 ∧
      (allocRequestID s isWS).1 = fmtID s.tunnelID isWS (s.requestCount + 1)) ∧
    List.Pairwise (fun a b => a ≠ b) (idsFrom s ops) := by
  refine ⟨fun isWS => ⟨rfl, rfl⟩, ?_⟩
  induction ops generalizing s with
  | nil => simp [idsFrom]
  | cons op rest ih =>
    rw [idsFrom]
    refine List.Pairwise.cons ?_ (ih _)
    intro b hb heq
    obtain ⟨w, c, hc, he⟩ := mem_idsFrom _ _ _ hb
    subst he
    have hcc := fmtID_inj s.tunnelID op w (s.requestCount + 1) c heq
    have hc2 : s.requestCount + 1 < c := hc
    omega

lemma mem_markInactive (db : List TunnelRow) (tunnelID : String) :
    ∀ r ∈ markInactive db tunnelID, r.id = tunnelID → r.isActive = false := by
  intro r hr hid
  simp only [markInactive, List.mem_map] at hr
  obtain ⟨r0, _, he⟩ := hr
  by_cases h0 : r0.id = tunnelID
  · rw [if_pos (by simpa using h0)] at he
    rw [← he]
  · rw [if_neg (by simpa using h0)] at he
    exact absurd (he ▸ hid) h0

/-- C7 counterexample: the validator lowercases before checking, so the
mixed-case string "ABC" is accepted even though "ABC" itself does not match
the regex `[a-z0-9]([a-z0-9-]*[a-z0-9])?`.  This refutes the claim that
every accepted string matches the regex. -/
theorem C7_counterexample :
    (ValidateSubdomain "ABC").1 = true ∧ matchesSubdomainPattern "ABC" = false := by
  decide

/-- C7 (amended): the LOWERCASED form of every accepted string matches the
regex, has length between 3 and 63, contains no "--" and is not reserved;
and on an already-lowercase input the validator gives the same verdict as
validating its lowercased form. -/
theorem C7_amended_validator_sound (s : String)
    (h : (ValidateSubdomain s).1 = true) :
    matchesSubdomainPattern (lowerStr s) = true ∧
    3 ≤ (lowerStr s).length ∧ (lowerStr s).length ≤ 63 ∧
    goContains (lowerStr s) "--" = false ∧
    IsReservedSubdomain (lowerStr s) = false ∧
    (lowerStr s = s → ValidateSubdomain s = ValidateSubdomain (lowerStr s)) := by
  unfold ValidateSubdomain at h
  split_ifs at h with h1 h2 h3 h4 h5
  refine ⟨by simpa using h4, by omega, by omega, by simpa using h5,
    by simpa using h3, ?_⟩
  intro he
  rw [he]

/-- C7 witness: the amended soundness theorem applied to the accepted
subdomain "my-app". -/
theorem C7_amended_witness :
    matchesSubdomainPattern (lowerStr "my-app") = true ∧
    3 ≤ (lowerStr "my-app").length ∧ (lowerStr "my-app").length ≤ 63 ∧
    goContains (lowerStr "my-app") "--" = false ∧
    IsReservedSubdomain (lowerStr "my-app") = false ∧
    (lowerStr "my-app" = "my-app" →
      ValidateSubdomain "my-app" = ValidateSubdomain (lowerStr "my-app")) :=
  C7_amended_validator_sound "my-app" (by decide)

/-- C8: an administrative stop for a tunnel that has no live session in the
active-tunnels map but is still marked active in the registry returns
status 200 and leaves the registry row marked inactive (the stale state is
reconciled). -/
theorem C8_stop_reconciles_stale_active (db : List TunnelRow)
    (activeTunnels : List String) (uid tunnelID : String) (row : TunnelRow)
    (terminateOk : Bool)
    (hfind : db.find? (fun r => r.id == tunnelID) = some row)
    (hown : row.userId = uid) (hstale : row.isActive = true)
    (hnolive : activeTunnels.contains tunnelID = false)
    (htid : tunnelID ≠ "") :
    (StopTunnel db activeTunnels (some uid) tunnelID true terminateOk).1.status = 200 ∧
    ∀ r ∈ (StopTunnel db activeTunnels (some uid) tunnelID true terminateOk).2,
      r.id = tunnelID → r.isActive = false := by
  have hbeq : (tunnelID == "") = false := by simpa using htid
  simp only [StopTunnel, hbeq, hfind, hown, hnolive, Bool.false_eq_true,
    if_false, bne_self_eq_false, Bool.not_false, if_true]
  exact ⟨trivial, mem_markInactive db tunnelID⟩

/-- C8 witness: the reconcile theorem applied to a one-row registry whose
tunnel t1 is marked active while the active-tunnels map is empty. -/
theorem C8_witness :
    (StopTunnel [⟨"t1", "u1", "demo", 3000, "tok-1", true⟩] []
        (some "u1") "t1" true true).1.status = 200 ∧
    ∀ r ∈ (StopTunnel [⟨"t1", "u1", "demo", 3000, "tok-1", true⟩] []
        (some "u1") "t1" true true).2,
      r.id = "t1" → r.isActive = false :=
  C8_stop_reconciles_stale_active [⟨"t1", "u1", "demo", 3000, "tok-1", true⟩]
    [] "u1" "t1" ⟨"t1", "u1", "demo", 3000, "tok-1", true⟩ true
    (by decide) rfl rfl (by decide) (by decide)

/-- C10: with an authenticated caller, an empty (or equivalently absent)
X-Tunnel-ID or X-Tunnel-Auth header is rejected with 400 and the message
"Missing tunnel credentials" before any registry read, auth-token
comparison or WebSocket upgrade, and the registry is unchanged. -/
theorem C10_missing_credentials_rejected_early (db : List TunnelRow)
    (uid xTunnelID xTunnelAuth : String) (upgradeOk dbOk : Bool)
    (h : xTunnelID = "" ∨ xTunnelAuth = "") :
    ConnectTunnel db (some uid) xTunnelID xTunnelAuth upgradeOk dbOk =
      (ConnectOutcome.rejected 400 "Missing tunnel credentials", ⟨0, false⟩, db) := by
  rcases h with h | h <;> simp [ConnectTunnel, h]

/-- C10 witness: the early-rejection theorem applied to an empty
X-Tunnel-ID header with a populated auth header. -/
theorem C10_witness :
    ConnectTunnel [] (some "u1") "" "secret-token" true true =
      (ConnectOutcome.rejected 400 "Missing tunnel credentials", ⟨0, false⟩, []) :=
  C10_missing_credentials_rejected_early [] "u1" "" "secret-token" true true
    (Or.inl rfl)

/-- C1: the S7 inbound websocket_data frame for established session
t1-ws-1 is only logged, and no inbound frame of any type ever produces a
write to the browser-side WebSocket: `handleWebSocketData` is a stub, so
agent-to-browser frame delivery does not happen. -/
theorem C1_websocket_data_never_delivered_to_browser :
    HandleTunnelMessage ["t1-ws-1"] 0
        (mkDataMsg "websocket_data" "t1-ws-1" [("message_type", "1")] "ping" 0) =
      [InboundEffect.logOnly] ∧
    ∀ pending now m messageType payload,
      InboundEffect.browserFrame messageType payload ∉
        HandleTunnelMessage pending now m := by
  refine ⟨by decide, ?_⟩
  intro pending now m messageType payload
  unfold HandleTunnelMessage
  split_ifs <;> simp
